import Mathlib

/-!
# hackajur: debt-collection proposals

A shallow embedding of the Go sources

* `internal/database/propose.go` (the `Propose` record family),
* `internal/database/propose_test.go` (`TestName`),
* `internal/database/debtor.go` (`Debtor`, `InsertDebtor`),
* `cmd/api/propose.go` (`createPropose`),
* `cmd/api/debtor.go` (`Address`, `Debtor`, `createDebtor`),

together with the part of Go's `encoding/json`, `time` and `google/uuid`
behaviour those sources rely on.

Conventions.  Go `int` is a 64-bit integer, embedded as `Int` together with
the range predicate `inInt64`.  A Go `string` is embedded as `String`, so only
strings that are valid UTF-8 are represented.  A Go slice is `Option (List α)`:
`none` is the nil slice, `some l` a non-nil slice.  A Go `(value, error)` result
is a pair whose second component is `Option Err` (`none` is the nil error).
-/

namespace Hackajur

/-- Error values; only whether an error is nil or not is ever inspected. -/
abbrev Err := String

/-! ## JSON values -/

/-- A parsed JSON value.  `num n` is the number written as the decimal integer
literal of `n`; `numE n` is a number written in any other way (with a fraction
or an exponent, as `1e21`, or with the rounded digits Go writes for a large
`float64`) whose nearest `float64` is that of the integer `n`.  Numbers whose
`float64` is not a whole number and the literal `-0` are not represented.
`str s` is the string `s`, written without escape sequences. -/
inductive JSON where
  | null
  | bool (b : Bool)
  | num (n : Int)
  | numE (n : Int)
  | str (s : String)
  | arr (elems : List JSON)
  | obj (members : List (String × JSON))

/-- Range of the Go type `int` on a 64-bit platform. -/
def inInt64 (n : Int) : Prop :=
  -9223372036854775808 ≤ n ∧ n ≤ 9223372036854775807

instance (n : Int) : Decidable (inInt64 n) := by
  unfold inInt64; infer_instance

/-! ## `time.Time` and its JSON text -/

/-- Value of a decimal digit character. -/
def digitVal (c : Char) : Option Nat :=
  if 48 ≤ c.toNat ∧ c.toNat ≤ 57 then some (c.toNat - 48) else none

/-- Is the character a decimal digit? -/
def isDigit (c : Char) : Bool := (digitVal c).isSome

/-- The character of a decimal digit. -/
def digitChar (n : Nat) : Char := Char.ofNat (48 + n % 10)

/-- The number two decimal digits denote. -/
def twoDigitVal (a b : Char) : Option Nat :=
  match digitVal a, digitVal b with
  | some x, some y => some (10 * x + y)
  | _, _ => none

/-- Two decimal digits read as a number between `lo` and `hi`. -/
def twoDigits (a b : Char) (lo hi : Nat) : Bool :=
  match twoDigitVal a b with
  | some n => decide (lo ≤ n) && decide (n ≤ hi)
  | none => false

/-- Four decimal digits read as a year. -/
def fourDigits (a b c d : Char) : Option Nat :=
  match digitVal a, digitVal b, digitVal c, digitVal d with
  | some w, some x, some y, some z => some (1000 * w + 100 * x + 10 * y + z)
  | _, _, _, _ => none

/-- Gregorian leap year. -/
def isLeap (y : Nat) : Bool :=
  y % 4 == 0 && (y % 100 != 0 || y % 400 == 0)

/-- Number of days of month `m` in year `y`. -/
def daysIn (m y : Nat) : Nat :=
  if m = 2 then (if isLeap y then 29 else 28)
  else if m = 4 ∨ m = 6 ∨ m = 9 ∨ m = 11 then 30 else 31

/-- Month `m1 m2` in 1..12 and day `d1 d2` within that month of year `y`. -/
def monthDayOK (y : Nat) (m1 m2 d1 d2 : Char) : Bool :=
  match twoDigitVal m1 m2 with
  | some m => decide (1 ≤ m) && decide (m ≤ 12) && twoDigits d1 d2 1 (daysIn m y)
  | none => false

/-- The hour at the head of `h1 :: rest`, written with one or two digits and
below 24: its two-digit form and what follows it. -/
def splitHour (h1 : Char) (rest : List Char) : Option (List Char × List Char) :=
  if isDigit h1 then
    match rest with
    | [] => some (['0', h1], [])
    | h2 :: rest1 =>
      if isDigit h2 then
        (if twoDigits h1 h2 0 23 then some ([h1, h2], rest1) else none)
      else some (['0', h1], h2 :: rest1)
  else none

/-- An optional fraction of a second at the head of the text, a period or a
comma followed by one or more digits: its digits and what follows them. -/
def splitFraction : List Char → List Char × List Char
  | [] => ([], [])
  | [c] => ([], [c])
  | c :: d :: rest =>
    if (c = '.' ∨ c = ',') ∧ isDigit d then
      ((d :: rest).takeWhile isDigit, (d :: rest).dropWhile isDigit)
    else ([], c :: d :: rest)

/-- The fraction as `MarshalJSON` writes it: nanosecond precision, trailing
zeros dropped, nothing at all for a zero fraction. -/
def normalizeFraction (digits : List Char) : List Char :=
  match ((digits.take 9).reverse.dropWhile fun c => c == '0').reverse with
  | [] => []
  | ds => '.' :: ds

/-- The zone designator, `Z` or a sign followed by `hh:mm` with `hh ≤ 24` and
`mm ≤ 60`, as `MarshalJSON` writes that offset: `Z` for offset zero, else the
sign and `hh:mm` with `mm < 60`.  An offset of 24 hours or more has no such
text and is not represented. -/
def normalizeZone : List Char → Option (List Char)
  | [z] => if z = 'Z' then some ['Z'] else none
  | [sg, h1, h2, c, m1, m2] =>
    if (sg = '+' ∨ sg = '-') ∧ c = ':' then
      match twoDigitVal h1 h2, twoDigitVal m1 m2 with
      | some hr, some mm =>
        if hr ≤ 24 ∧ mm ≤ 60 then
          (if 60 * hr + mm = 0 then some ['Z']
          else if (60 * hr + mm) / 60 ≤ 23 then
            some [sg, digitChar ((60 * hr + mm) / 60 / 10), digitChar ((60 * hr + mm) / 60),
              ':', digitChar ((60 * hr + mm) % 60 / 10), digitChar ((60 * hr + mm) % 60)]
          else none)
        else none
      | _, _ => none
    else none
  | _ => none

/-- The text `time.Time.UnmarshalJSON` accepts,
`yyyy-mm-ddThh:mm:ss[.fraction](Z|±hh:mm)` with every field in range (the hour
may have one digit, the fraction may start with a comma, the zone may be
`24:00` or `00:60`), brought to the form `MarshalJSON` writes for the time it
denotes; `none` for any other text. -/
def normalizeTime (cs : List Char) : Option (List Char) :=
  match cs with
  | y1 :: y2 :: y3 :: y4 :: p1 :: m1 :: m2 :: p2 :: d1 :: d2 :: t :: h1 :: rest =>
    match fourDigits y1 y2 y3 y4 with
    | none => none
    | some y =>
      if p1 = '-' ∧ p2 = '-' ∧ t = 'T' ∧ monthDayOK y m1 m2 d1 d2 = true then
        match splitHour h1 rest with
        | none => none
        | some (hh, c1 :: n1 :: n2 :: c2 :: s1 :: s2 :: rest2) =>
          if c1 = ':' ∧ c2 = ':' ∧ twoDigits n1 n2 0 59 = true ∧ twoDigits s1 s2 0 59 = true then
            match normalizeZone (splitFraction rest2).2 with
            | none => none
            | some z =>
              some ([y1, y2, y3, y4, '-', m1, m2, '-', d1, d2, 'T'] ++ hh ++
                [':', n1, n2, ':', s1, s2] ++ normalizeFraction (splitFraction rest2).1 ++ z)
          else none
        | some _ => none
      else none
  | _ => none

/-- Is the text in the form `MarshalJSON` writes (RFC 3339 with nanoseconds)? -/
def isMarshalText (s : String) : Bool :=
  decide (normalizeTime s.data = some s.data)

/-- The location of a `time.Time`: `UTC`; `Local`, as `time.Now` sets it; the
location parsing gives a text with a non-zero offset (`Local` when the local
zone has that offset at that instant, else an unnamed fixed zone); or a zone
loaded by name. -/
inductive Location where
  | utc
  | localZone
  | parsed
  | named (name : String)
  deriving DecidableEq

/-- A `time.Time`: the RFC 3339 text `MarshalJSON` gives it, which fixes its
instant and zone offset, together with what that text does not carry, the
monotonic clock reading (present in the results of `time.Now`) and the
location.  Only times that have such a text are represented: year 0 to 9999,
zone offset a whole number of minutes below 24 hours. -/
structure Time where
  text : String
  valid : isMarshalText text = true
  mono : Option Nat
  loc : Location
  deriving DecidableEq

/-- The zero `time.Time`. -/
def Time.zero : Time := ⟨"0001-01-01T00:00:00Z", by decide, none, .utc⟩

/-- Method `MarshalJSON` of `time.Time`: the quoted RFC 3339 text. -/
def Time.marshal (t : Time) : JSON := .str t.text

/-- The location parsing gives a time written as `cs`: `UTC` when the zone is
written `Z`. -/
def parsedLocation (cs : List Char) : Location :=
  if cs.getLast? = some 'Z' then .utc else .parsed

/-- Method `UnmarshalJSON` of `time.Time`, decoding into a field holding `cur`:
`null` leaves the field as it is; a string must be an RFC 3339 text and gives
the time it denotes, without monotonic reading; all else fails. -/
def Time.unmarshal (cur : Time) : JSON → Except Err Time
  | .null => .ok cur
  | .str s =>
    match normalizeTime s.data with
    | none => .error "parsing time"
    | some cs =>
      if h : isMarshalText (String.mk cs) = true then
        .ok { text := String.mk cs, valid := h, mono := none, loc := parsedLocation s.data }
      else .error "parsing time"
  | _ => .error "Time.UnmarshalJSON: input is not a JSON string"

/-- What `UnmarshalJSON` makes of the text `MarshalJSON` writes for `t`: the same
instant and offset, no monotonic reading, the location parsing gives. -/
def Time.reparsed (t : Time) : Time :=
  { text := t.text, valid := t.valid, mono := none, loc := parsedLocation t.text.data }

/-! ## `encoding/json`: decoding into typed destinations

Each decoder takes the destination's current content `cur` and the JSON value;
JSON `null` leaves scalars and records untouched and resets slices and
interfaces to nil.  An object is decoded member by member, in order; a key
selects the field whose JSON name it equals under simple case folding; a key
that selects no field is skipped.
-/

/-- Simple case folding of a character, as far as it can reach an ASCII letter:
upper-case ASCII letters, the long s (U+017F) and the Kelvin sign (U+212A). -/
def foldChar (c : Char) : Char :=
  if 65 ≤ c.toNat ∧ c.toNat ≤ 90 then Char.ofNat (c.toNat + 32)
  else if c.toNat = 383 then 's'
  else if c.toNat = 8490 then 'k'
  else c

/-- Does the JSON key `k` select the field whose JSON name is `name`?  The names
of this program are ASCII, so folding the key decides it. -/
def keyMatch (k name : String) : Bool :=
  k.data.map foldChar == name.data.map foldChar

/-- Decoding into a Go `string`. -/
def decodeString (cur : String) : JSON → Except Err String
  | .null => .ok cur
  | .str s => .ok s
  | _ => .error "cannot unmarshal into Go value of type string"

/-- Decoding into a Go `int`: only an integer literal within range is accepted. -/
def decodeInt (cur : Int) : JSON → Except Err Int
  | .null => .ok cur
  | .num n => if inInt64 n then .ok n else .error "cannot unmarshal number into Go value of type int"
  | _ => .error "cannot unmarshal into Go value of type int"

/-- Decoding into a Go `bool`. -/
def decodeBool (cur : Bool) : JSON → Except Err Bool
  | .null => .ok cur
  | .bool b => .ok b
  | _ => .error "cannot unmarshal into Go value of type bool"

/-- Decoding the elements of a JSON array into a slice whose elements so far are
`existing`: each JSON element is decoded into the element already at its
index, or into the zero value `zero` beyond them.  (Elements left in spare
capacity by an earlier, longer array are not represented.) -/
def decodeElems {α : Type} (elem : α → JSON → Except Err α) (zero : α) :
    List α → List JSON → Except Err (List α)
  | _, [] => .ok []
  | existing, v :: vs =>
    match elem (existing.headD zero) v with
    | .error e => .error e
    | .ok a =>
      match decodeElems elem zero existing.tail vs with
      | .error e => .error e
      | .ok as => .ok (a :: as)

/-- The elements of a Go slice (none for the nil slice). -/
def sliceElems {α : Type} : Option (List α) → List α
  | none => []
  | some l => l

/-- Decoding into a Go slice holding `cur`: `null` gives the nil slice, an array
a slice of as many elements. -/
def decodeSlice {α : Type} (elem : α → JSON → Except Err α) (zero : α)
    (cur : Option (List α)) : JSON → Except Err (Option (List α))
  | .null => .ok none
  | .arr vs =>
    match decodeElems elem zero (sliceElems cur) vs with
    | .error e => .error e
    | .ok as => .ok (some as)
  | _ => .error "cannot unmarshal into Go value of slice type"

/-- Decoding the members of a JSON object in order, `set` storing one member. -/
def decodeMembers {σ : Type} (set : σ → String → JSON → Except Err σ) :
    σ → List (String × JSON) → Except Err σ
  | s, [] => .ok s
  | s, (k, v) :: rest =>
    match set s k v with
    | .error e => .error e
    | .ok s' => decodeMembers set s' rest

/-- Decoding into a Go struct: `null` leaves it untouched, an object is decoded
member by member, all else fails. -/
def decodeStruct {σ : Type} (set : σ → String → JSON → Except Err σ) (cur : σ) :
    JSON → Except Err σ
  | .null => .ok cur
  | .obj members => decodeMembers set cur members
  | _ => .error "cannot unmarshal into Go value of struct type"

/-- Encoding a Go slice: the nil slice is `null`, any other an array. -/
def encodeSlice {α : Type} (elem : α → JSON) : Option (List α) → JSON
  | none => .null
  | some l => .arr (l.map elem)

/-! ## `encoding/json`: the empty interface -/

/-- The value `encoding/json` stores in an `interface{}`: `nil`, a `bool`, a
`float64` (here always a whole number, given by its value), a `string`, a
`[]interface{}` or a `map[string]interface{}` (its entries by increasing key,
each key once). -/
inductive GoValue where
  | nil
  | bool (b : Bool)
  | float64 (x : Int)
  | string (s : String)
  | slice (elems : List GoValue)
  | map (entries : List (String × GoValue))

/-- The number `2 ^ 1024`, the first magnitude beyond the range of `float64`. -/
def float64Bound : Nat :=
  179769313486231590772930519078902473361797697894230657273430081157732675805500963132708477322407536021120113879871393357658789768814416622492847430639474124377767893424865485276302219601246094119453082952085005768838150682342462881473913110540827237163350510684586298239947245938479716304835356329624224137216

/-- The number of low bits to drop from `m` to leave 53 significant bits. -/
def shiftFor : Nat → Nat → Nat
  | 0, _ => 0
  | fuel + 1, m => if m < 2 ^ 53 then 0 else shiftFor fuel (m / 2) + 1

/-- The natural number `m < 2 ^ 1024` rounded to 53 significant bits, ties to
even: the value of the nearest `float64`, or `2 ^ 1024`. -/
def roundTo53 (m : Nat) : Nat :=
  if m < 2 ^ 53 then m
  else
    (if 2 ^ (shiftFor 1024 m - 1) < m % 2 ^ shiftFor 1024 m ∨
        (m % 2 ^ shiftFor 1024 m = 2 ^ (shiftFor 1024 m - 1) ∧
          m / 2 ^ shiftFor 1024 m % 2 = 1) then
      m / 2 ^ shiftFor 1024 m + 1
    else m / 2 ^ shiftFor 1024 m) * 2 ^ shiftFor 1024 m

/-- The call `strconv.ParseFloat(s, 64)` on a literal whose value is the integer
`n`: the nearest `float64`, or a failure when that is beyond the range of the
type. -/
def float64OfInt (n : Int) : Except Err Int :=
  if float64Bound ≤ n.natAbs then
    .error "cannot unmarshal number into Go value of type float64"
  else if float64Bound ≤ roundTo53 n.natAbs then
    .error "cannot unmarshal number into Go value of type float64"
  else .ok (n.sign * roundTo53 n.natAbs)

/-- Order of the keys of a map when it is encoded: by code points. -/
def keyLt : List Char → List Char → Bool
  | [], [] => false
  | [], _ :: _ => true
  | _ :: _, [] => false
  | a :: as, b :: bs => decide (a.toNat < b.toNat) || (decide (a.toNat = b.toNat) && keyLt as bs)

/-- The assignment `m[k] = g` on the entries of a map. -/
def mapInsert (k : String) (g : GoValue) : List (String × GoValue) → List (String × GoValue)
  | [] => [(k, g)]
  | (k1, g1) :: rest =>
    if keyLt k.data k1.data then (k, g) :: (k1, g1) :: rest
    else if k = k1 then (k, g) :: rest
    else (k1, g1) :: mapInsert k g rest

mutual
/-- Decoding a JSON value into the generic value an `interface{}` receives. -/
def toGo : JSON → Except Err GoValue
  | .null => .ok .nil
  | .bool b => .ok (.bool b)
  | .num n =>
    match float64OfInt n with
    | .error e => .error e
    | .ok x => .ok (.float64 x)
  | .numE n =>
    match float64OfInt n with
    | .error e => .error e
    | .ok x => .ok (.float64 x)
  | .str s => .ok (.string s)
  | .arr vs =>
    match toGoList vs with
    | .error e => .error e
    | .ok gs => .ok (.slice gs)
  | .obj ms =>
    match toGoMembers [] ms with
    | .error e => .error e
    | .ok es => .ok (.map es)
/-- Decoding the elements of an array into generic values. -/
def toGoList : List JSON → Except Err (List GoValue)
  | [] => .ok []
  | v :: vs =>
    match toGo v with
    | .error e => .error e
    | .ok g =>
      match toGoList vs with
      | .error e => .error e
      | .ok gs => .ok (g :: gs)
/-- Decoding the members of an object into the entries of a map, in order, a
later member replacing an earlier one of the same key. -/
def toGoMembers : List (String × GoValue) → List (String × JSON) →
    Except Err (List (String × GoValue))
  | acc, [] => .ok acc
  | acc, (k, v) :: ms =>
    match toGo v with
    | .error e => .error e
    | .ok g => toGoMembers (mapInsert k g acc) ms
end

mutual
/-- Encoding of a generic value.  A `float64` below `2 ^ 53` in magnitude is
written as its integer literal; a larger one is written with the fewest digits
that read back as the same `float64`, with an exponent from `1e21` on, a
literal represented by `numE`. -/
def GoValue.encode : GoValue → JSON
  | .nil => .null
  | .bool b => .bool b
  | .float64 x => if x.natAbs < 2 ^ 53 then .num x else .numE x
  | .string s => .str s
  | .slice gs => .arr (GoValue.encodeList gs)
  | .map es => .obj (GoValue.encodeEntries es)
/-- Encoding of the elements of a `[]interface{}`. -/
def GoValue.encodeList : List GoValue → List JSON
  | [] => []
  | g :: gs => g.encode :: GoValue.encodeList gs
/-- Encoding of the entries of a `map[string]interface{}`. -/
def GoValue.encodeEntries : List (String × GoValue) → List (String × JSON)
  | [] => []
  | (k, g) :: es => (k, g.encode) :: GoValue.encodeEntries es
end

/-- A Go `interface{}` value as this program meets it: a `time.Time` put there
by Go code, or a generic value stored by `encoding/json`. -/
inductive Any where
  | time (t : Time)
  | generic (g : GoValue)

/-- The nil interface value. -/
def Any.nil : Any := .generic .nil

/-- Is the dynamic type `time.Time`? -/
def Any.isTime : Any → Bool
  | .time _ => true
  | .generic _ => false

/-- Encoding of an interface value: that of the value it holds. -/
def Any.encode : Any → JSON
  | .time t => t.marshal
  | .generic g => g.encode

/-- Decoding into an empty-interface destination: the JSON value is stored in
its generic form, whatever the destination held; it fails only on a number
beyond the range of `float64`. -/
def Any.decode (_cur : Any) (v : JSON) : Except Err Any :=
  match toGo v with
  | .error e => .error e
  | .ok g => .ok (.generic g)

/-- Is the integer beyond the range of `float64`, its nearest `float64` being
`2 ^ 1024` or more in magnitude? -/
def beyondFloat64 (n : Int) : Bool :=
  decide (float64Bound ≤ n.natAbs) || decide (float64Bound ≤ roundTo53 n.natAbs)

mutual
/-- Does the JSON value contain, at any depth, a number beyond the range of
`float64`? -/
def JSON.hasHugeNumber : JSON → Bool
  | .null => false
  | .bool _ => false
  | .num n => beyondFloat64 n
  | .numE n => beyondFloat64 n
  | .str _ => false
  | .arr vs => JSON.anyHuge vs
  | .obj ms => JSON.anyHugeMember ms
/-- Does one of the values contain a number beyond the range of `float64`? -/
def JSON.anyHuge : List JSON → Bool
  | [] => false
  | v :: vs => v.hasHugeNumber || JSON.anyHuge vs
/-- Does one of the members contain a number beyond the range of `float64`? -/
def JSON.anyHugeMember : List (String × JSON) → Bool
  | [] => false
  | (_, v) :: ms => v.hasHugeNumber || JSON.anyHugeMember ms
end

/-! ## Package `database`: `propose.go` -/

namespace Database

/-- The record `Debtor` of `debtor.go`; it has no `json` tags, so its JSON names
are the Go field names. -/
structure Debtor where
  Id : String
  FiscalDocument : String
  Name : String
  Email : String
  TypeOfDebtor : String
  PostalCode : String
  City : String
  Uf : String
  Street : String
  Number : String
  Complement : String
  deriving DecidableEq

structure CollateralGurantee where
  Name : String
  Desc : String
  Value : String
  deriving DecidableEq

structure Correction where
  Name : String
  Value : Int
  CorrectionStatus : String
  deriving DecidableEq

structure OtherCharges where
  Name : String
  ChargerType : String
  Value : Int
  deriving DecidableEq

structure Interest where
  Name : String
  ChargerType : String
  Value : Int
  deriving DecidableEq

structure Fee where
  Name : String
  ChargerType : String
  Value : Int
  deriving DecidableEq

structure Debt where
  Id : String
  Debtor : Option (List Database.Debtor)
  Origin : String
  DocumentID : String
  ExpirationDate : Time
  OriginalValue : Int
  Fee : Database.Fee
  Interest : Database.Interest
  OtherCharges : Option (List Database.OtherCharges)
  PresentValue : Int
  Collateral : Option (List CollateralGurantee)
  Correction : Database.Correction
  deriving DecidableEq

structure Payments where
  Name : String
  Status : Bool
  deriving DecidableEq

structure Comunication where
  Name : String
  Status : Bool
  deriving DecidableEq

structure Status where
  UpdatedAt : Time
  Situation : String
  deriving DecidableEq

structure Propose where
  Id : String
  Debt : Database.Debt
  Date : Time
  Status : Database.Status
  ProposeValue : Int
  ExpirationDate : Any
  PaymentDeadline : Int
  Payments : Option (List Database.Payments)
  Comunication : Option (List Database.Comunication)

/-! ### Zero values (`Propose{}` and its parts) -/

def Debtor.zero : Debtor := ⟨"", "", "", "", "", "", "", "", "", "", ""⟩
def CollateralGurantee.zero : CollateralGurantee := ⟨"", "", ""⟩
def Correction.zero : Correction := ⟨"", 0, ""⟩
def OtherCharges.zero : OtherCharges := ⟨"", "", 0⟩
def Interest.zero : Interest := ⟨"", "", 0⟩
def Fee.zero : Fee := ⟨"", "", 0⟩
def Payments.zero : Payments := ⟨"", false⟩
def Comunication.zero : Comunication := ⟨"", false⟩
def Status.zero : Status := ⟨Time.zero, ""⟩

def Debt.zero : Debt :=
  { Id := "", Debtor := none, Origin := "", DocumentID := "", ExpirationDate := Time.zero,
    OriginalValue := 0, Fee := Fee.zero, Interest := Interest.zero, OtherCharges := none,
    PresentValue := 0, Collateral := none, Correction := Correction.zero }

def Propose.zero : Propose :=
  { Id := "", Debt := Debt.zero, Date := Time.zero, Status := Status.zero, ProposeValue := 0,
    ExpirationDate := Any.nil, PaymentDeadline := 0, Payments := none, Comunication := none }

/-! ### `json.Marshal` of the records, field by field in declaration order -/

def Debtor.encode (d : Debtor) : JSON :=
  .obj [("Id", .str d.Id), ("FiscalDocument", .str d.FiscalDocument), ("Name", .str d.Name),
    ("Email", .str d.Email), ("TypeOfDebtor", .str d.TypeOfDebtor),
    ("PostalCode", .str d.PostalCode), ("City", .str d.City), ("Uf", .str d.Uf),
    ("Street", .str d.Street), ("Number", .str d.Number), ("Complement", .str d.Complement)]

def CollateralGurantee.encode (c : CollateralGurantee) : JSON :=
  .obj [("Name", .str c.Name), ("Desc", .str c.Desc), ("Value", .str c.Value)]

def Correction.encode (c : Correction) : JSON :=
  .obj [("name", .str c.Name), ("value", .num c.Value),
    ("correctionStatus", .str c.CorrectionStatus)]

def OtherCharges.encode (c : OtherCharges) : JSON :=
  .obj [("name", .str c.Name), ("chargerType", .str c.ChargerType), ("value", .num c.Value)]

def Interest.encode (c : Interest) : JSON :=
  .obj [("name", .str c.Name), ("chargerType", .str c.ChargerType), ("value", .num c.Value)]

def Fee.encode (c : Fee) : JSON :=
  .obj [("name", .str c.Name), ("chargerType", .str c.ChargerType), ("value", .num c.Value)]

def Payments.encode (c : Payments) : JSON :=
  .obj [("name", .str c.Name), ("status", .bool c.Status)]

def Comunication.encode (c : Comunication) : JSON :=
  .obj [("name", .str c.Name), ("status", .bool c.Status)]

def Status.encode (s : Status) : JSON :=
  .obj [("updatedAt", s.UpdatedAt.marshal), ("situation", .str s.Situation)]

def Debt.encode (d : Debt) : JSON :=
  .obj [("id", .str d.Id), ("debtor", encodeSlice Debtor.encode d.Debtor),
    ("origin", .str d.Origin), ("documentId", .str d.DocumentID),
    ("expirationDate", d.ExpirationDate.marshal), ("originalValue", .num d.OriginalValue),
    ("fee", d.Fee.encode), ("interest", d.Interest.encode),
    ("otherCharges", encodeSlice OtherCharges.encode d.OtherCharges),
    ("presentValue", .num d.PresentValue),
    ("collateral", encodeSlice CollateralGurantee.encode d.Collateral),
    ("correction", d.Correction.encode)]

def Propose.encode (p : Propose) : JSON :=
  .obj [("id", .str p.Id), ("debt", p.Debt.encode), ("date", p.Date.marshal),
    ("status", p.Status.encode), ("proposeValue", .num p.ProposeValue),
    ("expirationDate", p.ExpirationDate.encode), ("paymentDeadline", .num p.PaymentDeadline),
    ("payments", encodeSlice Payments.encode p.Payments),
    ("comunication", encodeSlice Comunication.encode p.Comunication)]

/-! ### `json.Unmarshal` into the records

`setField` stores one object member into the record: the field is chosen by
its `json` tag (by its Go name when it has no tag). -/

def Debtor.setField (d : Debtor) (k : String) (v : JSON) : Except Err Debtor :=
  if keyMatch k "Id" then (decodeString d.Id v).map fun s => { d with Id := s }
  else if keyMatch k "FiscalDocument" then
    (decodeString d.FiscalDocument v).map fun s => { d with FiscalDocument := s }
  else if keyMatch k "Name" then (decodeString d.Name v).map fun s => { d with Name := s }
  else if keyMatch k "Email" then (decodeString d.Email v).map fun s => { d with Email := s }
  else if keyMatch k "TypeOfDebtor" then
    (decodeString d.TypeOfDebtor v).map fun s => { d with TypeOfDebtor := s }
  else if keyMatch k "PostalCode" then
    (decodeString d.PostalCode v).map fun s => { d with PostalCode := s }
  else if keyMatch k "City" then (decodeString d.City v).map fun s => { d with City := s }
  else if keyMatch k "Uf" then (decodeString d.Uf v).map fun s => { d with Uf := s }
  else if keyMatch k "Street" then (decodeString d.Street v).map fun s => { d with Street := s }
  else if keyMatch k "Number" then (decodeString d.Number v).map fun s => { d with Number := s }
  else if keyMatch k "Complement" then
    (decodeString d.Complement v).map fun s => { d with Complement := s }
  else .ok d

def Debtor.decode (cur : Debtor) (v : JSON) : Except Err Debtor :=
  decodeStruct Debtor.setField cur v

def CollateralGurantee.setField (c : CollateralGurantee) (k : String) (v : JSON) :
    Except Err CollateralGurantee :=
  if keyMatch k "Name" then (decodeString c.Name v).map fun s => { c with Name := s }
  else if keyMatch k "Desc" then (decodeString c.Desc v).map fun s => { c with Desc := s }
  else if keyMatch k "Value" then (decodeString c.Value v).map fun s => { c with Value := s }
  else .ok c

def CollateralGurantee.decode (cur : CollateralGurantee) (v : JSON) :
    Except Err CollateralGurantee :=
  decodeStruct CollateralGurantee.setField cur v

def Correction.setField (c : Correction) (k : String) (v : JSON) : Except Err Correction :=
  if keyMatch k "name" then (decodeString c.Name v).map fun s => { c with Name := s }
  else if keyMatch k "value" then (decodeInt c.Value v).map fun n => { c with Value := n }
  else if keyMatch k "correctionStatus" then
    (decodeString c.CorrectionStatus v).map fun s => { c with CorrectionStatus := s }
  else .ok c

def Correction.decode (cur : Correction) (v : JSON) : Except Err Correction :=
  decodeStruct Correction.setField cur v

def OtherCharges.setField (c : OtherCharges) (k : String) (v : JSON) :
    Except Err OtherCharges :=
  if keyMatch k "name" then (decodeString c.Name v).map fun s => { c with Name := s }
  else if keyMatch k "chargerType" then
    (decodeString c.ChargerType v).map fun s => { c with ChargerType := s }
  else if keyMatch k "value" then (decodeInt c.Value v).map fun n => { c with Value := n }
  else .ok c

def OtherCharges.decode (cur : OtherCharges) (v : JSON) : Except Err OtherCharges :=
  decodeStruct OtherCharges.setField cur v

def Interest.setField (c : Interest) (k : String) (v : JSON) : Except Err Interest :=
  if keyMatch k "name" then (decodeString c.Name v).map fun s => { c with Name := s }
  else if keyMatch k "chargerType" then
    (decodeString c.ChargerType v).map fun s => { c with ChargerType := s }
  else if keyMatch k "value" then (decodeInt c.Value v).map fun n => { c with Value := n }
  else .ok c

def Interest.decode (cur : Interest) (v : JSON) : Except Err Interest :=
  decodeStruct Interest.setField cur v

def Fee.setField (c : Fee) (k : String) (v : JSON) : Except Err Fee :=
  if keyMatch k "name" then (decodeString c.Name v).map fun s => { c with Name := s }
  else if keyMatch k "chargerType" then
    (decodeString c.ChargerType v).map fun s => { c with ChargerType := s }
  else if keyMatch k "value" then (decodeInt c.Value v).map fun n => { c with Value := n }
  else .ok c

def Fee.decode (cur : Fee) (v : JSON) : Except Err Fee :=
  decodeStruct Fee.setField cur v

def Payments.setField (c : Payments) (k : String) (v : JSON) : Except Err Payments :=
  if keyMatch k "name" then (decodeString c.Name v).map fun s => { c with Name := s }
  else if keyMatch k "status" then (decodeBool c.Status v).map fun b => { c with Status := b }
  else .ok c

def Payments.decode (cur : Payments) (v : JSON) : Except Err Payments :=
  decodeStruct Payments.setField cur v

def Comunication.setField (c : Comunication) (k : String) (v : JSON) :
    Except Err Comunication :=
  if keyMatch k "name" then (decodeString c.Name v).map fun s => { c with Name := s }
  else if keyMatch k "status" then (decodeBool c.Status v).map fun b => { c with Status := b }
  else .ok c

def Comunication.decode (cur : Comunication) (v : JSON) : Except Err Comunication :=
  decodeStruct Comunication.setField cur v

def Status.setField (s : Status) (k : String) (v : JSON) : Except Err Status :=
  if keyMatch k "updatedAt" then
    (Time.unmarshal s.UpdatedAt v).map fun t => { s with UpdatedAt := t }
  else if keyMatch k "situation" then
    (decodeString s.Situation v).map fun x => { s with Situation := x }
  else .ok s

def Status.decode (cur : Status) (v : JSON) : Except Err Status :=
  decodeStruct Status.setField cur v

def Debt.setField (d : Debt) (k : String) (v : JSON) : Except Err Debt :=
  if keyMatch k "id" then (decodeString d.Id v).map fun s => { d with Id := s }
  else if keyMatch k "debtor" then
    (decodeSlice Debtor.decode Debtor.zero d.Debtor v).map fun l => { d with Debtor := l }
  else if keyMatch k "origin" then (decodeString d.Origin v).map fun s => { d with Origin := s }
  else if keyMatch k "documentId" then
    (decodeString d.DocumentID v).map fun s => { d with DocumentID := s }
  else if keyMatch k "expirationDate" then
    (Time.unmarshal d.ExpirationDate v).map fun t => { d with ExpirationDate := t }
  else if keyMatch k "originalValue" then
    (decodeInt d.OriginalValue v).map fun n => { d with OriginalValue := n }
  else if keyMatch k "fee" then (Fee.decode d.Fee v).map fun c => { d with Fee := c }
  else if keyMatch k "interest" then
    (Interest.decode d.Interest v).map fun c => { d with Interest := c }
  else if keyMatch k "otherCharges" then
    (decodeSlice OtherCharges.decode OtherCharges.zero d.OtherCharges v).map fun l =>
      { d with OtherCharges := l }
  else if keyMatch k "presentValue" then
    (decodeInt d.PresentValue v).map fun n => { d with PresentValue := n }
  else if keyMatch k "collateral" then
    (decodeSlice CollateralGurantee.decode CollateralGurantee.zero d.Collateral v).map fun l =>
      { d with Collateral := l }
  else if keyMatch k "correction" then
    (Correction.decode d.Correction v).map fun c => { d with Correction := c }
  else .ok d

def Debt.decode (cur : Debt) (v : JSON) : Except Err Debt :=
  decodeStruct Debt.setField cur v

def Propose.setField (p : Propose) (k : String) (v : JSON) : Except Err Propose :=
  if keyMatch k "id" then (decodeString p.Id v).map fun s => { p with Id := s }
  else if keyMatch k "debt" then (Debt.decode p.Debt v).map fun d => { p with Debt := d }
  else if keyMatch k "date" then (Time.unmarshal p.Date v).map fun t => { p with Date := t }
  else if keyMatch k "status" then
    (Status.decode p.Status v).map fun s => { p with Status := s }
  else if keyMatch k "proposeValue" then
    (decodeInt p.ProposeValue v).map fun n => { p with ProposeValue := n }
  else if keyMatch k "expirationDate" then
    (Any.decode p.ExpirationDate v).map fun a => { p with ExpirationDate := a }
  else if keyMatch k "paymentDeadline" then
    (decodeInt p.PaymentDeadline v).map fun n => { p with PaymentDeadline := n }
  else if keyMatch k "payments" then
    (decodeSlice Payments.decode Payments.zero p.Payments v).map fun l =>
      { p with Payments := l }
  else if keyMatch k "comunication" then
    (decodeSlice Comunication.decode Comunication.zero p.Comunication v).map fun l =>
      { p with Comunication := l }
  else .ok p

/-- The call `json.Unmarshal(data, &p)` for a `Propose` destination holding `cur`. -/
def Propose.decode (cur : Propose) (v : JSON) : Except Err Propose :=
  decodeStruct Propose.setField cur v

/-! ### `propose_test.go` -/

/-- What `TestName` takes from its environment: two fresh UUID strings and four
times derived from `time.Now()`. -/
structure TestEnv where
  debtorId : String
  documentId : String
  debtExpiration : Time
  date : Time
  updatedAt : Time
  expiration : Time

/-- The value `p` built by `TestName`. -/
def TestName.p (env : TestEnv) : Propose :=
  { Id := ""
    Debt :=
      { Id := ""
        Debtor := some [{
          Id := env.debtorId
          FiscalDocument := "12345678"
          Name := "Devedor"
          Email := "email@email.com"
          TypeOfDebtor := "individual | company"
          PostalCode := "38400200"
          City := "cidade"
          Uf := "estado"
          Street := "rua"
          Number := "0"
          Complement := "ap 123" }]
        Origin := ""
        DocumentID := env.documentId
        ExpirationDate := env.debtExpiration
        OriginalValue := 300
        Fee := { Name := "taxa", ChargerType := "fixed | percentage", Value := 123 }
        Interest := { Name := "juros", ChargerType := "fixed' | 'percentage", Value := 123 }
        OtherCharges := none
        PresentValue := 1250
        Collateral := some [{ Name := "", Desc := "", Value := "" }]
        Correction := { Name := "correcao", Value := 123, CorrectionStatus := "correct | no-correct" } }
    Date := env.date
    Status :=
      { UpdatedAt := env.updatedAt
        Situation := "sent\" | \"viewed\" | \"accepted\" | \"completed\" | \"expired\" | \"cancelled\" | \"execution\" | \"error\"" }
    ProposeValue := 12345
    ExpirationDate := .time env.expiration
    PaymentDeadline := 3
    Payments := some [{ Name := "name", Status := false }]
    Comunication := some [{ Name := "Email", Status := true }, { Name := "SMS", Status := true },
      { Name := "WhatsApp", Status := true }] }

/-- The JSON `TestName` marshals from `p` and prints. -/
def TestName (env : TestEnv) : JSON := (TestName.p env).encode

end Database

/-! ## `google/uuid` -/

/-- A `uuid.UUID`: sixteen bytes. -/
structure UUID where
  b : Fin 16 → Nat

/-- One lower-case hexadecimal digit. -/
def hexDigit (n : Nat) : Char :=
  if n < 10 then Char.ofNat (48 + n) else Char.ofNat (87 + n)

/-- The two hexadecimal digits of a byte. -/
def hexByte (n : Nat) : List Char :=
  [hexDigit (n % 256 / 16), hexDigit (n % 16)]

/-- Method `String` of `uuid.UUID`: `xxxxxxxx-xxxx-xxxx-xxxx-xxxxxxxxxxxx`. -/
def UUID.String (u : UUID) : String :=
  String.mk (hexByte (u.b 0) ++ hexByte (u.b 1) ++ hexByte (u.b 2) ++ hexByte (u.b 3) ++ ['-'] ++
    hexByte (u.b 4) ++ hexByte (u.b 5) ++ ['-'] ++ hexByte (u.b 6) ++ hexByte (u.b 7) ++ ['-'] ++
    hexByte (u.b 8) ++ hexByte (u.b 9) ++ ['-'] ++ hexByte (u.b 10) ++ hexByte (u.b 11) ++
    hexByte (u.b 12) ++ hexByte (u.b 13) ++ hexByte (u.b 14) ++ hexByte (u.b 15))

/-! ## Package `database`: `debtor.go` -/

namespace Database

/-- A stored row: the columns an `INSERT` names, each with the value bound to it. -/
abbrev Row := List (String × String)

/-- The database as far as `InsertDebtor` touches it: the rows of table `debtors`. -/
structure DB where
  debtors : List Row

/-- An `INSERT INTO table (columns) VALUES (placeholders)` statement; placeholder
`n` stands for `$n`. -/
structure InsertStmt where
  table : String
  columns : List String
  placeholders : List Nat

/-- The arguments the placeholders `ns` stand for; `none` when one of them has
no argument. -/
def bindArgs (args : List String) : List Nat → Option (List String)
  | [] => some []
  | n :: ns =>
    match (if n = 0 then none else args.get? (n - 1)), bindArgs args ns with
    | some v, some vs => some (v :: vs)
    | _, _ => none

/-- The row an insert statement writes for the argument list `args`: every column
gets the argument its placeholder numbers (`$1` is the first argument); `none`
when a placeholder has no argument or the column and value counts differ. -/
def bindRow (q : InsertStmt) (args : List String) : Option Row :=
  if q.columns.length = q.placeholders.length then
    (bindArgs args q.placeholders).map fun vals => q.columns.zip vals
  else none

/-- The call `db.ExecContext(ctx, query, args...)` for an insert into `debtors`.
`outcome` is what the database server and the deadline make of the statement
(`none`: it is carried out).  A statement that fails writes nothing. -/
def ExecContext (db : DB) (outcome : Option Err) (q : InsertStmt) (args : List String) :
    DB × Option Err :=
  match outcome with
  | some e => (db, some e)
  | none =>
    match bindRow q args with
    | none => (db, some "wrong number of arguments")
    | some row => ({ db with debtors := db.debtors ++ [row] }, none)

/-- What `InsertDebtor` takes from its environment: the result of
`uuid.NewUUID()` and the outcome of executing the statement. -/
structure InsertEnv where
  newUUID : UUID × Option Err
  exec : Option Err

/-- The `query` literal of `InsertDebtor`. -/
def InsertDebtor.query : InsertStmt :=
  { table := "debtors"
    columns := ["id", "fiscal_document", "name", "email", "type_of_debtor", "postal_code",
      "city", "uf", "number", "complement"]
    placeholders := [1, 2, 3, 4, 5, 6, 7, 8, 9, 10] }

/-- The results `(string, error)` of `InsertDebtor` and the database afterwards. -/
structure InsertResult where
  id : String
  err : Option Err
  db : DB

/-- The method `(*DB).InsertDebtor`.  The UUID is bound through its `String` form. -/
def InsertDebtor (db : DB) (env : InsertEnv)
    (fiscalDocument name email typeOfDebtor postalCode city uf number complement : String) :
    InsertResult :=
  match env.newUUID with
  | (_, some err) => { id := "", err := some err, db := db }
  | (id, none) =>
    match ExecContext db env.exec InsertDebtor.query
        [id.String, fiscalDocument, name, email, typeOfDebtor, postalCode, city, uf, number,
          complement] with
    | (db1, some err) => { id := "", err := some err, db := db1 }
    | (db1, none) => { id := id.String, err := none, db := db1 }

end Database

/-! ## Package `request` -/

/-- A request body: either it is not one JSON value (empty, badly formed, too
large, trailing data), or it is the JSON value `v`. -/
inductive Body where
  | malformed
  | value (v : JSON)

/-- Modelled from the spec: `request.DecodeJSON`, whose package `internal/request`
is not among the sources.  The transport layer "decodes incoming requests into
the data-model shapes": the body has to be a single JSON value, which
`encoding/json` decodes into the destination `dst` by `decode`. -/
def DecodeJSON {σ : Type} (decode : σ → JSON → Except Err σ) (body : Body) (dst : σ) :
    Except Err σ :=
  match body with
  | .malformed => .error "body contains badly-formed JSON"
  | .value v => decode dst v

/-! ## Package `main` (`cmd/api`) -/

namespace Api

structure Address where
  PostalCode : String
  City : String
  Uf : String
  Street : String
  Number : String
  Complement : String
  deriving DecidableEq

structure Debtor where
  ID : String
  FiscalDocument : String
  Name : String
  Email : String
  TypeOfDebtor : String
  Address : Api.Address
  deriving DecidableEq

def Address.zero : Address := ⟨"", "", "", "", "", ""⟩
def Debtor.zero : Debtor := ⟨"", "", "", "", "", Address.zero⟩

def Address.setField (a : Address) (k : String) (v : JSON) : Except Err Address :=
  if keyMatch k "postalCode" then
    (decodeString a.PostalCode v).map fun s => { a with PostalCode := s }
  else if keyMatch k "city" then (decodeString a.City v).map fun s => { a with City := s }
  else if keyMatch k "uf" then (decodeString a.Uf v).map fun s => { a with Uf := s }
  else if keyMatch k "street" then (decodeString a.Street v).map fun s => { a with Street := s }
  else if keyMatch k "number" then (decodeString a.Number v).map fun s => { a with Number := s }
  else if keyMatch k "complement" then
    (decodeString a.Complement v).map fun s => { a with Complement := s }
  else .ok a

def Address.decode (cur : Address) (v : JSON) : Except Err Address :=
  decodeStruct Address.setField cur v

def Debtor.setField (d : Debtor) (k : String) (v : JSON) : Except Err Debtor :=
  if keyMatch k "id" then (decodeString d.ID v).map fun s => { d with ID := s }
  else if keyMatch k "fiscalDocument" then
    (decodeString d.FiscalDocument v).map fun s => { d with FiscalDocument := s }
  else if keyMatch k "name" then (decodeString d.Name v).map fun s => { d with Name := s }
  else if keyMatch k "email" then (decodeString d.Email v).map fun s => { d with Email := s }
  else if keyMatch k "typeOfDebtor" then
    (decodeString d.TypeOfDebtor v).map fun s => { d with TypeOfDebtor := s }
  else if keyMatch k "address" then
    (Address.decode d.Address v).map fun a => { d with Address := a }
  else .ok d

/-- The call `json.Unmarshal(data, &input)` for the request record `Debtor`. -/
def Debtor.decode (cur : Debtor) (v : JSON) : Except Err Debtor :=
  decodeStruct Debtor.setField cur v

/-- What a handler does, in order: its calls to `app.badRequest`,
`app.serverError`, `w.Write`, `response.JSON` and `app.db.InsertDebtor`. -/
inductive Effect where
  | badRequest (err : Err)
  | serverError (err : Err)
  | write (body : String)
  | responseJSON (status : Nat) (data : String)
  | insertDebtor (fiscalDocument name email typeOfDebtor postalCode city uf number
      complement : String)
  deriving DecidableEq

/-- The constant `http.StatusOK`. -/
def StatusOK : Nat := 200

/-- The handler `createPropose`; `decodeJSON` is `request.DecodeJSON` at
destination type `Propose`. -/
def createPropose (decodeJSON : Body → Database.Propose → Except Err Database.Propose)
    (body : Body) : List Effect :=
  let input := Database.Propose.zero
  match decodeJSON body input with
  | .error err => [.badRequest err]
  | .ok _ => [.write "This is a protected handler"]

/-- The handler `createDebtor`: the effects it performs and the database
afterwards.  `decodeJSON` is `request.DecodeJSON` at destination type `Debtor`,
`env` the environment of `InsertDebtor`, `jsonErr` the error `response.JSON`
returns. -/
def createDebtor (decodeJSON : Body → Debtor → Except Err Debtor) (env : Database.InsertEnv)
    (jsonErr : Option Err) (db : Database.DB) (body : Body) : List Effect × Database.DB :=
  let input := Debtor.zero
  match decodeJSON body input with
  | .error err => ([.badRequest err], db)
  | .ok input =>
    let call := Effect.insertDebtor input.FiscalDocument input.Name input.Email
      input.TypeOfDebtor input.Address.PostalCode input.Address.City input.Address.Uf
      input.Address.Number input.Address.Complement
    let r := Database.InsertDebtor db env input.FiscalDocument input.Name input.Email
      input.TypeOfDebtor input.Address.PostalCode input.Address.City input.Address.Uf
      input.Address.Number input.Address.Complement
    match r.err with
    | some err => ([call, .serverError err], r.db)
    | none =>
      match jsonErr with
      | some err => ([call, .responseJSON StatusOK r.id, .serverError err], r.db)
      | none => ([call, .responseJSON StatusOK r.id], r.db)

end Api

/-! ## The proposal lifecycle of the specification

The sources declare the record `Status` and nothing that changes it; the
transition operation is taken from the specification. -/

namespace Lifecycle

/-- Modelled from the spec: the terminal states of section 4.2, `completed`,
`expired`, `cancelled` and `error`; no transition operation or state table
exists in the sources. -/
def terminal : List String := ["completed", "expired", "cancelled", "error"]

/-- Modelled from the spec: the allowed-transition table of section 4.2, which
the sources do not contain: "`sent → {viewed, expired, cancelled, error}`,
`viewed → {accepted, expired, cancelled, error}`,
`accepted → {execution, cancelled, error}`,
`execution → {completed, cancelled, error}`, terminal states accept no further
transitions". -/
def allowed (s : String) : List String :=
  if s = "sent" then ["viewed", "expired", "cancelled", "error"]
  else if s = "viewed" then ["accepted", "expired", "cancelled", "error"]
  else if s = "accepted" then ["execution", "cancelled", "error"]
  else if s = "execution" then ["completed", "cancelled", "error"]
  else []

/-- Modelled from the spec: the two failures section 4.2 and section 7 name for
`Advance`, `InvalidTransition` and `ProposalClosed`; the sources have no such
errors. -/
inductive AdvanceError where
  | InvalidTransition
  | ProposalClosed
  deriving DecidableEq

/-- Modelled from the spec: the operation `Advance(proposal, target)` of section
4.2, which the sources do not implement: it "fails with `InvalidTransition` if
`target` is not in the allowed set for the current state; on success sets
`situation = target` and `updatedAt = now`"; on a proposal in a terminal state
it fails with `ProposalClosed`; a failure is a no-op.  The result is the
proposal's status afterwards and the failure, if any; `now` is the reading of
the injected clock. -/
def Advance (p : Database.Propose) (target : String) (now : Time) :
    Database.Status × Option AdvanceError :=
  if p.Status.Situation ∈ terminal then (p.Status, some .ProposalClosed)
  else if target ∈ allowed p.Status.Situation then
    ({ UpdatedAt := now, Situation := target }, none)
  else (p.Status, some .InvalidTransition)

end Lifecycle

/-! ## The properties under test -/

namespace Database

/-- The eight lifecycle states. -/
def lifecycleStates : List String :=
  ["sent", "viewed", "accepted", "execution", "completed", "expired", "cancelled", "error"]

/-- The charges of a debt are all in `fixed` mode. -/
def Debt.fixedMode (d : Debt) : Prop :=
  d.Fee.ChargerType = "fixed" ∧ d.Interest.ChargerType = "fixed" ∧
    ∀ c ∈ sliceElems d.OtherCharges, c.ChargerType = "fixed"

instance (d : Debt) : Decidable d.fixedMode := by
  unfold Debt.fixedMode; infer_instance

/-- The sum `OriginalValue + Fee.Value + Interest.Value + Σ OtherCharges[i].Value +
Correction.Value`. -/
def Debt.chargesTotal (d : Debt) : Int :=
  d.OriginalValue + d.Fee.Value + d.Interest.Value +
    ((sliceElems d.OtherCharges).map fun c => c.Value).sum + d.Correction.Value

/-- Every `int` of a debt is within the range of the Go type. -/
def Debt.inRange (d : Debt) : Prop :=
  inInt64 d.OriginalValue ∧ inInt64 d.Fee.Value ∧ inInt64 d.Interest.Value ∧
    (∀ c ∈ sliceElems d.OtherCharges, inInt64 c.Value) ∧ inInt64 d.PresentValue ∧
    inInt64 d.Correction.Value

instance (d : Debt) : Decidable d.inRange := by
  unfold Debt.inRange; infer_instance

/-- Every `int` of a proposal is within the range of the Go type. -/
def Propose.inRange (p : Propose) : Prop :=
  p.Debt.inRange ∧ inInt64 p.ProposeValue ∧ inInt64 p.PaymentDeadline

instance (p : Propose) : Decidable p.inRange := by
  unfold Propose.inRange; infer_instance

/-- A sample environment for `TestName`: the times are results of `time.Now()`
and `Add`, which carry a monotonic clock reading and the location `Local`. -/
def TestName.sampleEnv : TestEnv :=
  { debtorId := "6ba7b810-9dad-11d1-80b4-00c04fd430c8"
    documentId := "6ba7b811-9dad-11d1-80b4-00c04fd430c8"
    debtExpiration := ⟨"2038-04-02T04:00:00.000001-03:00", by decide, some 1000, .localZone⟩
    date := ⟨"2026-11-04T12:00:00.000002-03:00", by decide, some 2000, .localZone⟩
    updatedAt := ⟨"2026-11-05T12:00:00.000003-03:00", by decide, some 3000, .localZone⟩
    expiration := ⟨"2026-11-08T12:00:00.000004-03:00", by decide, some 4000, .localZone⟩ }

end Database

/-! ## Sample requests -/

namespace Api

/-- `request.DecodeJSON` at destination type `Propose`. -/
def decodePropose : Body → Database.Propose → Except Err Database.Propose :=
  DecodeJSON Database.Propose.decode

/-- `request.DecodeJSON` at destination type `Debtor`. -/
def decodeDebtor : Body → Debtor → Except Err Debtor :=
  DecodeJSON Debtor.decode

/-- A debt of 300 with fixed charges of 123 each and a stated present value of 1250. -/
def fixedChargesDebt : Database.Debt :=
  { Database.Debt.zero with
    OriginalValue := 300
    Fee := { Name := "taxa", ChargerType := "fixed", Value := 123 }
    Interest := { Name := "juros", ChargerType := "fixed", Value := 123 }
    PresentValue := 1250
    Correction := { Name := "correcao", Value := 123, CorrectionStatus := "correct" } }

/-- The request body
`{"debt": {"originalValue": 300, "fee": {"name": "taxa", "chargerType": "fixed", "value": 123},
"interest": {"name": "juros", "chargerType": "fixed", "value": 123}, "presentValue": 1250,
"correction": {"name": "correcao", "value": 123, "correctionStatus": "correct"}}}`. -/
def fixedChargesBody : Body :=
  .value (.obj [("debt", .obj [("originalValue", .num 300),
    ("fee", .obj [("name", .str "taxa"), ("chargerType", .str "fixed"), ("value", .num 123)]),
    ("interest", .obj [("name", .str "juros"), ("chargerType", .str "fixed"),
      ("value", .num 123)]),
    ("presentValue", .num 1250),
    ("correction", .obj [("name", .str "correcao"), ("value", .num 123),
      ("correctionStatus", .str "correct")])])])

/-- The request body
`{"debt": {"debtor": [], "originalValue": -5}, "paymentDeadline": 0}`. -/
def invalidProposeBody : Body :=
  .value (.obj [("debt", .obj [("debtor", .arr []), ("originalValue", .num (-5))]),
    ("paymentDeadline", .num 0)])

/-- The request body `{"status": {"situation": s}}`. -/
def situationBody (s : String) : Body :=
  .value (.obj [("status", .obj [("situation", .str s)])])

/-- The request body `{"expirationDate": v}`. -/
def expirationBody (v : JSON) : Body :=
  .value (.obj [("expirationDate", v)])

/-- The request body `{"expirationDate": 5}`. -/
def numericExpirationBody : Body := expirationBody (.num 5)

/-- The request body `{"expirationDate": "2026-11-08T12:00:00Z"}`. -/
def timestampExpirationBody : Body := expirationBody (.str "2026-11-08T12:00:00Z")

/-- The request body `{"expirationDate": 9007199254740993}`, the number
`2 ^ 53 + 1`. -/
def roundedExpirationBody : Body := expirationBody (.num 9007199254740993)

/-- The request body `{"expirationDate": n}` for the integer `n = 10 ^ 400`. -/
def hugeExpirationBody : Body := expirationBody (.num (Int.ofNat (10 ^ 200 * 10 ^ 200)))

/-- A request body for `POST /debtor` carrying every field of the request record. -/
def debtorBody : Body :=
  .value (.obj [("id", .str "chosen-by-caller"), ("fiscalDocument", .str "12345678"),
    ("name", .str "Devedor"), ("email", .str "email@email.com"),
    ("typeOfDebtor", .str "individual"),
    ("address", .obj [("postalCode", .str "38400200"), ("city", .str "cidade"),
      ("uf", .str "estado"), ("street", .str "rua"), ("number", .str "0"),
      ("complement", .str "ap 123")])])

/-- The request record `debtorBody` decodes to. -/
def debtorInput : Debtor :=
  { ID := "chosen-by-caller", FiscalDocument := "12345678", Name := "Devedor",
    Email := "email@email.com", TypeOfDebtor := "individual",
    Address :=
      { PostalCode := "38400200", City := "cidade", Uf := "estado", Street := "rua",
        Number := "0", Complement := "ap 123" } }

/-- A sample UUID. -/
def sampleUUID : UUID := ⟨fun i => 16 * i.val + 7⟩

/-- An environment in which the UUID is generated and the statement carried out. -/
def envSuccess : Database.InsertEnv := { newUUID := (sampleUUID, none), exec := none }

/-- An environment in which executing the statement fails. -/
def envExecFails : Database.InsertEnv :=
  { newUUID := (sampleUUID, none), exec := some "context deadline exceeded" }

/-- Is the effect a call of `InsertDebtor`? -/
def Effect.isInsert : Effect → Bool
  | .insertDebtor .. => true
  | _ => false

/-- Is the effect a call of `response.JSON`? -/
def Effect.isResponse : Effect → Bool
  | .responseJSON .. => true
  | _ => false

end Api

/-! ## Decoding what was encoded -/

theorem decodeElems_map {α : Type} (elem : α → JSON → Except Err α) (zero : α) (enc : α → JSON)
    (existing l : List α) (h : ∀ c, ∀ a ∈ l, elem c (enc a) = .ok a) :
    decodeElems elem zero existing (l.map enc) = .ok l := by
  induction l generalizing existing with
  | nil => rfl
  | cons a as ih =>
    have h1 := h (existing.headD zero) a (List.mem_cons_self a as)
    have h2 := ih existing.tail (fun c b hb => h c b (List.mem_cons_of_mem a hb))
    simp only [List.map_cons, decodeElems, h1, h2]

theorem decodeSlice_encodeSlice {α : Type} (elem : α → JSON → Except Err α) (zero : α)
    (enc : α → JSON) (cur l : Option (List α))
    (h : ∀ c, ∀ a ∈ sliceElems l, elem c (enc a) = .ok a) :
    decodeSlice elem zero cur (encodeSlice enc l) = .ok l := by
  cases l with
  | none => rfl
  | some as => simp [decodeSlice, encodeSlice, decodeElems_map elem zero enc _ as h]

theorem Time.unmarshal_marshal (cur t : Time) :
    Time.unmarshal cur t.marshal = .ok t.reparsed := by
  have hv : normalizeTime t.text.data = some t.text.data := of_decide_eq_true t.valid
  have hs : String.mk t.text.data = t.text := rfl
  simp only [Time.unmarshal, Time.marshal, hv]
  simp [hs, t.valid, Time.reparsed]

theorem float64OfInt_small (n : Int) (h : n.natAbs < 2 ^ 53) : float64OfInt n = .ok n := by
  have hb : ¬ float64Bound ≤ n.natAbs := by
    have : (2 : Nat) ^ 53 < float64Bound := by norm_num [float64Bound]
    omega
  have hr : roundTo53 n.natAbs = n.natAbs := by
    unfold roundTo53
    exact if_pos h
  simp only [float64OfInt, hr, if_neg hb, Int.sign_mul_natAbs]

theorem float64OfInt_ok_iff (n : Int) :
    (∃ x, float64OfInt n = .ok x) ↔ beyondFloat64 n = false := by
  unfold float64OfInt beyondFloat64
  by_cases h1 : float64Bound ≤ n.natAbs
  · simp [h1]
  · by_cases h2 : float64Bound ≤ roundTo53 n.natAbs
    · simp [h1, h2]
    · simp [h1, h2]

mutual
theorem toGo_ok_iff (v : JSON) : (∃ g, toGo v = .ok g) ↔ v.hasHugeNumber = false := by
  cases v with
  | null => simp [toGo, JSON.hasHugeNumber]
  | bool b => simp [toGo, JSON.hasHugeNumber]
  | num n =>
    have := float64OfInt_ok_iff n
    cases h : float64OfInt n <;> simp [toGo, JSON.hasHugeNumber, h] at this ⊢ <;> exact this
  | numE n =>
    have := float64OfInt_ok_iff n
    cases h : float64OfInt n <;> simp [toGo, JSON.hasHugeNumber, h] at this ⊢ <;> exact this
  | str s => simp [toGo, JSON.hasHugeNumber]
  | arr vs =>
    have := toGoList_ok_iff vs
    cases h : toGoList vs <;> simp [toGo, JSON.hasHugeNumber, h] at this ⊢ <;> exact this
  | obj ms =>
    have := toGoMembers_ok_iff ms []
    cases h : toGoMembers [] ms <;> simp [toGo, JSON.hasHugeNumber, h] at this ⊢ <;> exact this
theorem toGoList_ok_iff (vs : List JSON) :
    (∃ gs, toGoList vs = .ok gs) ↔ JSON.anyHuge vs = false := by
  cases vs with
  | nil => simp [toGoList, JSON.anyHuge]
  | cons v vs =>
    have h1 := toGo_ok_iff v
    have h2 := toGoList_ok_iff vs
    cases hv : toGo v <;> cases hl : toGoList vs <;>
      simp [toGoList, JSON.anyHuge, hv, hl] at h1 h2 ⊢ <;> simp [h1, h2]
theorem toGoMembers_ok_iff (ms : List (String × JSON)) (acc : List (String × GoValue)) :
    (∃ es, toGoMembers acc ms = .ok es) ↔ JSON.anyHugeMember ms = false := by
  cases ms with
  | nil => simp [toGoMembers, JSON.anyHugeMember]
  | cons m ms =>
    obtain ⟨k, v⟩ := m
    have h1 := toGo_ok_iff v
    cases hv : toGo v with
    | error e => simp [toGoMembers, JSON.anyHugeMember, hv] at h1 ⊢; simp [h1]
    | ok g =>
      have h2 := toGoMembers_ok_iff ms (mapInsert k g acc)
      simp [toGoMembers, JSON.anyHugeMember, hv] at h1 h2 ⊢
      simp [h1, h2]
end

namespace Database

theorem Debtor_decode_encode (cur d : Debtor) : Debtor.decode cur d.encode = .ok d := by
  simp +decide [Debtor.decode, Debtor.encode, decodeStruct, decodeMembers, Debtor.setField,
    decodeString, Except.map]

theorem CollateralGurantee_decode_encode (cur c : CollateralGurantee) :
    CollateralGurantee.decode cur c.encode = .ok c := by
  simp +decide [CollateralGurantee.decode, CollateralGurantee.encode, decodeStruct,
    decodeMembers, CollateralGurantee.setField, decodeString, Except.map]

theorem Correction_decode_encode (cur c : Correction) (h : inInt64 c.Value) :
    Correction.decode cur c.encode = .ok c := by
  simp +decide [Correction.decode, Correction.encode, decodeStruct, decodeMembers,
    Correction.setField, decodeString, decodeInt, Except.map, h]

theorem OtherCharges_decode_encode (cur c : OtherCharges) (h : inInt64 c.Value) :
    OtherCharges.decode cur c.encode = .ok c := by
  simp +decide [OtherCharges.decode, OtherCharges.encode, decodeStruct, decodeMembers,
    OtherCharges.setField, decodeString, decodeInt, Except.map, h]

theorem Interest_decode_encode (cur c : Interest) (h : inInt64 c.Value) :
    Interest.decode cur c.encode = .ok c := by
  simp +decide [Interest.decode, Interest.encode, decodeStruct, decodeMembers,
    Interest.setField, decodeString, decodeInt, Except.map, h]

theorem Fee_decode_encode (cur c : Fee) (h : inInt64 c.Value) :
    Fee.decode cur c.encode = .ok c := by
  simp +decide [Fee.decode, Fee.encode, decodeStruct, decodeMembers, Fee.setField,
    decodeString, decodeInt, Except.map, h]

theorem Payments_decode_encode (cur c : Payments) : Payments.decode cur c.encode = .ok c := by
  simp +decide [Payments.decode, Payments.encode, decodeStruct, decodeMembers,
    Payments.setField, decodeString, decodeBool, Except.map]

theorem Comunication_decode_encode (cur c : Comunication) :
    Comunication.decode cur c.encode = .ok c := by
  simp +decide [Comunication.decode, Comunication.encode, decodeStruct, decodeMembers,
    Comunication.setField, decodeString, decodeBool, Except.map]

theorem Status_decode_encode (cur s : Status) :
    Status.decode cur s.encode = .ok { s with UpdatedAt := s.UpdatedAt.reparsed } := by
  simp +decide [Status.decode, Status.encode, decodeStruct, decodeMembers, Status.setField,
    decodeString, Except.map, Time.unmarshal_marshal]

theorem Debt_decode_encode (cur d : Debt) (h : d.inRange) :
    Debt.decode cur d.encode = .ok { d with ExpirationDate := d.ExpirationDate.reparsed } := by
  obtain ⟨h1, h2, h3, h4, h5, h6⟩ := h
  simp +decide [Debt.decode, Debt.encode, decodeStruct, decodeMembers, Debt.setField,
    decodeString, decodeInt, Except.map, Time.unmarshal_marshal, h1, h5,
    Fee_decode_encode _ _ h2, Interest_decode_encode _ _ h3, Correction_decode_encode _ _ h6,
    decodeSlice_encodeSlice Debtor.decode Debtor.zero Debtor.encode cur.Debtor d.Debtor
      (fun c a _ => Debtor_decode_encode c a),
    decodeSlice_encodeSlice OtherCharges.decode OtherCharges.zero OtherCharges.encode
      cur.OtherCharges d.OtherCharges (fun c a ha => OtherCharges_decode_encode c a (h4 a ha)),
    decodeSlice_encodeSlice CollateralGurantee.decode CollateralGurantee.zero
      CollateralGurantee.encode cur.Collateral d.Collateral
      (fun c a _ => CollateralGurantee_decode_encode c a)]

theorem Propose_decode_encode (cur p : Propose) (t : Time) (h : p.inRange)
    (ht : p.ExpirationDate = .time t) :
    Propose.decode cur p.encode =
      .ok { p with
        Debt := { p.Debt with ExpirationDate := p.Debt.ExpirationDate.reparsed }
        Date := p.Date.reparsed
        Status := { p.Status with UpdatedAt := p.Status.UpdatedAt.reparsed }
        ExpirationDate := .generic (.string t.text) } := by
  obtain ⟨h1, h2, h3⟩ := h
  have hgo : toGo t.marshal = .ok (.string t.text) := rfl
  simp +decide [Propose.decode, Propose.encode, decodeStruct, decodeMembers, Propose.setField,
    decodeString, decodeInt, Except.map, Time.unmarshal_marshal, h2, h3, Any.decode, ht,
    Any.encode, hgo,
    Debt_decode_encode _ _ h1, Status_decode_encode,
    decodeSlice_encodeSlice Payments.decode Payments.zero Payments.encode cur.Payments
      p.Payments (fun c a _ => Payments_decode_encode c a),
    decodeSlice_encodeSlice Comunication.decode Comunication.zero Comunication.encode
      cur.Comunication p.Comunication (fun c a _ => Comunication_decode_encode c a)]

end Database

/-! ## Facts shared by the results below -/

theorem UUID.String_ne_empty (u : UUID) : u.String ≠ "" := by
  intro h
  have h1 := congrArg (fun s => s.data.length) h
  simp only [UUID.String, hexByte, List.length_append, List.length_cons, List.length_nil] at h1
  exact absurd h1 (by decide)

namespace Database

theorem bindRow_query (id a b c d e f g h i : String) :
    bindRow InsertDebtor.query [id, a, b, c, d, e, f, g, h, i] =
      some [("id", id), ("fiscal_document", a), ("name", b), ("email", c),
        ("type_of_debtor", d), ("postal_code", e), ("city", f), ("uf", g), ("number", h),
        ("complement", i)] := by
  simp [bindRow, bindArgs, InsertDebtor.query]

end Database

/-! ## Results -/

namespace Api
open Database

/-- C1 (counterexample): `createPropose` accepts a request whose debt has a
non-negative original value of 300, fixed charges of 123, 123 and 123 and a
stated present value of 1250, although the charges add up to 669; `TestName`
builds the same numbers. -/
theorem presentValue_not_derived :
    (∃ p, decodePropose fixedChargesBody Propose.zero = .ok p ∧
      createPropose decodePropose fixedChargesBody = [.write "This is a protected handler"] ∧
      0 ≤ p.Debt.OriginalValue ∧ p.Debt.fixedMode ∧
      p.Debt.PresentValue = 1250 ∧ p.Debt.chargesTotal = 669) ∧
    (TestName.p TestName.sampleEnv).Debt.PresentValue = 1250 ∧
    (TestName.p TestName.sampleEnv).Debt.chargesTotal = 669 := by
  refine ⟨⟨{ Propose.zero with Debt := fixedChargesDebt }, ?_, ?_, ?_, ?_, ?_, ?_⟩, ?_, ?_⟩
  · rfl
  · rfl
  · decide
  · simp [Debt.fixedMode, fixedChargesDebt, sliceElems, Debt.zero]
  · rfl
  · decide
  · rfl
  · decide

/-- C1 (amended): the present value is a number the caller supplies.  `TestName`
writes the literal 1250 beside charges adding up to 669, and for every debt `d`
(integers within the range of `int`) the request carrying `d` is accepted by
`createPropose` and decodes to `d` field by field, `PresentValue` and every
charge included, whatever the charges add up to; only the debt's expiration
date is the time parsed back from its text. -/
theorem presentValue_caller_supplied (env : TestEnv) (d : Debt) (h : d.inRange) :
    (TestName.p env).Debt.PresentValue = 1250 ∧ (TestName.p env).Debt.chargesTotal = 669 ∧
    decodePropose (.value (.obj [("debt", d.encode)])) Propose.zero =
      .ok { Propose.zero with
        Debt := { d with ExpirationDate := d.ExpirationDate.reparsed } } ∧
    createPropose decodePropose (.value (.obj [("debt", d.encode)])) =
      [.write "This is a protected handler"] := by
  have hd : decodePropose (.value (.obj [("debt", d.encode)])) Propose.zero =
      .ok { Propose.zero with
        Debt := { d with ExpirationDate := d.ExpirationDate.reparsed } } := by
    simp +decide [decodePropose, DecodeJSON, Propose.decode, decodeStruct, decodeMembers,
      Propose.setField, Except.map, Debt_decode_encode _ _ h]
  refine ⟨rfl, ?_, hd, ?_⟩
  · simp [Debt.chargesTotal, TestName.p, sliceElems]
  · simp [createPropose, hd]

/-- C1 (witness): the debt of 300 with fixed charges of 123 each and a stated
present value of 1250. -/
theorem presentValue_caller_supplied_witness :
    fixedChargesDebt.inRange ∧ fixedChargesDebt.fixedMode ∧
    fixedChargesDebt.chargesTotal = 669 ∧
    decodePropose (.value (.obj [("debt", fixedChargesDebt.encode)])) Propose.zero =
      .ok { Propose.zero with Debt := fixedChargesDebt } ∧
    ({ Propose.zero with Debt := fixedChargesDebt } : Propose).Debt.PresentValue = 1250 :=
  have h : fixedChargesDebt.inRange := by
    simp [Debt.inRange, fixedChargesDebt, sliceElems, Debt.zero, inInt64]
  ⟨h, by simp [Debt.fixedMode, fixedChargesDebt, sliceElems, Debt.zero], by decide,
    (presentValue_caller_supplied TestName.sampleEnv fixedChargesDebt h).2.2.1, rfl⟩

/-- C3 (counterexample): the request `{"debt": {"debtor": [], "originalValue": -5},
"paymentDeadline": 0}` decodes to a proposal with a negative original value, an
empty debtor list and a payment deadline of zero, and `createPropose` answers it
with the success text, not with a bad request. -/
theorem createPropose_accepts_invalid :
    ∃ p, decodePropose invalidProposeBody Propose.zero = .ok p ∧
      p.Debt.OriginalValue < 0 ∧ sliceElems p.Debt.Debtor = [] ∧ p.PaymentDeadline ≤ 0 ∧
      createPropose decodePropose invalidProposeBody =
        [.write "This is a protected handler"] :=
  ⟨{ Propose.zero with
      Debt := { Debt.zero with Debtor := some [], OriginalValue := -5 }
      PaymentDeadline := 0 },
    rfl, by decide, rfl, by decide, rfl⟩

/-- C3 (amended): `createPropose` reports a bad request exactly when decoding the
body fails, and answers with the success text exactly when the body decodes; it
looks at no field of the decoded proposal and changes no state. -/
theorem createPropose_rejects_iff
    (decodeJSON : Body → Propose → Except Err Propose) (body : Body) :
    (∀ err, createPropose decodeJSON body = [.badRequest err] ↔
      decodeJSON body Propose.zero = .error err) ∧
    (createPropose decodeJSON body = [.write "This is a protected handler"] ↔
      ∃ p, decodeJSON body Propose.zero = .ok p) := by
  cases h : decodeJSON body Propose.zero with
  | error e => simp [createPropose, h]
  | ok p => simp [createPropose, h]

/-- C5 (counterexample): the proposal `TestName` builds has as situation the
text listing all the names, which is none of the eight lifecycle states; and
`createPropose` accepts a request whose situation is `paid`. -/
theorem situation_not_lifecycle_state :
    (TestName.p TestName.sampleEnv).Status.Situation ∉ lifecycleStates ∧
    ∃ p, decodePropose (situationBody "paid") Propose.zero = .ok p ∧
      p.Status.Situation = "paid" ∧ p.Status.Situation ∉ lifecycleStates ∧
      createPropose decodePropose (situationBody "paid") =
        [.write "This is a protected handler"] :=
  ⟨by decide,
    { Propose.zero with Status := { Status.zero with Situation := "paid" } },
    rfl, rfl, by decide, rfl⟩

/-- C5 (amended): the situation is a string nothing validates.  `TestName` stores
the text listing the eight names, and for every string `s` the request
`{"status": {"situation": s}}` is accepted by `createPropose` and decodes to a
proposal whose situation is `s`. -/
theorem situation_unconstrained (env : TestEnv) (s : String) :
    (TestName.p env).Status.Situation =
      "sent\" | \"viewed\" | \"accepted\" | \"completed\" | \"expired\" | \"cancelled\" | \"execution\" | \"error\"" ∧
    decodePropose (situationBody s) Propose.zero =
      .ok { Propose.zero with Status := { Status.zero with Situation := s } } ∧
    createPropose decodePropose (situationBody s) = [.write "This is a protected handler"] := by
  have hd : decodePropose (situationBody s) Propose.zero =
      .ok { Propose.zero with Status := { Status.zero with Situation := s } } := by
    simp +decide [decodePropose, situationBody, DecodeJSON, Propose.decode, decodeStruct,
      decodeMembers, Propose.setField, Except.map, Status.decode, Status.setField,
      decodeString, Propose.zero]
  refine ⟨rfl, hd, ?_⟩
  simp [createPropose, hd]

/-- C4 (counterexample): decoding the JSON `TestName` produces does not give back
the proposal it built: the expiration date went in as a `time.Time` and comes
back as a string, and the date, built by `time.Now()`, comes back without its
monotonic clock reading. -/
theorem testName_roundtrip_differs :
    Propose.decode Propose.zero (TestName TestName.sampleEnv) ≠
      .ok (TestName.p TestName.sampleEnv) ∧
    (TestName.p TestName.sampleEnv).ExpirationDate.isTime = true ∧
    (TestName.p TestName.sampleEnv).Date.mono = some 2000 ∧
    ∃ q, Propose.decode Propose.zero (TestName TestName.sampleEnv) = .ok q ∧
      q.ExpirationDate.isTime = false ∧
      q.ExpirationDate.encode = .str "2026-11-08T12:00:00.000004-03:00" ∧
      q.Date.mono = none := by
  have hr : (TestName.p TestName.sampleEnv).inRange := by
    simp [Propose.inRange, Debt.inRange, TestName.p, sliceElems, inInt64]
  have hd := Propose_decode_encode Propose.zero (TestName.p TestName.sampleEnv)
    TestName.sampleEnv.expiration hr rfl
  refine ⟨?_, rfl, rfl, _, hd, rfl, rfl, rfl⟩
  intro h
  have h2 := congrArg
    (fun r => match r with
      | Except.ok q => q.ExpirationDate.isTime
      | Except.error _ => false) h
  rw [show Propose.decode Propose.zero (TestName TestName.sampleEnv) = _ from hd] at h2
  simp [Any.isTime, TestName.p] at h2

/-- C4 (amended): encoding a proposal whose expiration date holds a `time.Time`
and decoding the result into a fresh `Propose` succeeds and gives back every
string, integer, boolean and slice as it was; each `time.Time` field comes back
as the time parsed from its RFC 3339 text (same text, no monotonic clock
reading, the location parsing assigns); and `ExpirationDate` comes back as the
string holding that text. -/
theorem propose_json_roundtrip (p : Propose) (t : Time) (h : p.inRange)
    (ht : p.ExpirationDate = .time t) :
    Propose.decode Propose.zero p.encode =
      .ok { p with
        Debt := { p.Debt with ExpirationDate := p.Debt.ExpirationDate.reparsed }
        Date := p.Date.reparsed
        Status := { p.Status with UpdatedAt := p.Status.UpdatedAt.reparsed }
        ExpirationDate := .generic (.string t.text) } :=
  Propose_decode_encode Propose.zero p t h ht

/-- C4 (witness): the proposal of `TestName`. -/
theorem propose_json_roundtrip_witness :
    (TestName.p TestName.sampleEnv).inRange ∧
    (TestName.p TestName.sampleEnv).ExpirationDate = .time TestName.sampleEnv.expiration ∧
    Propose.decode Propose.zero (TestName.p TestName.sampleEnv).encode =
      .ok { TestName.p TestName.sampleEnv with
        Debt := { (TestName.p TestName.sampleEnv).Debt with
          ExpirationDate := TestName.sampleEnv.debtExpiration.reparsed }
        Date := TestName.sampleEnv.date.reparsed
        Status := { (TestName.p TestName.sampleEnv).Status with
          UpdatedAt := TestName.sampleEnv.updatedAt.reparsed }
        ExpirationDate := .generic (.string "2026-11-08T12:00:00.000004-03:00") } :=
  have hr : (TestName.p TestName.sampleEnv).inRange := by
    simp [Propose.inRange, Debt.inRange, TestName.p, sliceElems, inInt64]
  ⟨hr, rfl,
    propose_json_roundtrip (TestName.p TestName.sampleEnv) TestName.sampleEnv.expiration hr rfl⟩

/-- C8 (counterexample): the request `{"expirationDate": 5}` is neither rejected
nor coerced: it decodes to a proposal whose expiration date holds the
`float64` 5, not a timestamp, and `createPropose` answers with the success
text. -/
theorem expirationDate_number_accepted :
    ∃ p, decodePropose numericExpirationBody Propose.zero = .ok p ∧
      p.ExpirationDate.encode = .num 5 ∧ p.ExpirationDate.isTime = false ∧
      createPropose decodePropose numericExpirationBody =
        [.write "This is a protected handler"] :=
  ⟨{ Propose.zero with ExpirationDate := .generic (.float64 5) }, rfl, rfl, rfl, rfl⟩

/-- C8 (amended): the expiration date of a proposal is an open-ended field that
decoding never coerces to a timestamp.  When the value `v` of the member
`expirationDate` contains no number beyond the range of `float64`, it is
stored, whatever proposal has been decoded so far, as the generic value of `v`,
never as a `time.Time`, and the request `{"expirationDate": v}` gets the success
text; when `v` contains such a number, storing it fails and the request is a
bad request.  `null` is stored as nil, a boolean as `bool`, every string (a
valid timestamp too) as `string`, an integer of magnitude below `2 ^ 53` as that
`float64`, an array as the slice and an object as the map of the generic values
inside. -/
theorem expirationDate_stored_generic (p : Propose) (v : JSON) :
    (v.hasHugeNumber = false →
      ∃ g, toGo v = .ok g ∧
        Propose.setField p "expirationDate" v = .ok { p with ExpirationDate := .generic g } ∧
        (Any.generic g).isTime = false ∧
        decodePropose (expirationBody v) Propose.zero =
          .ok { Propose.zero with ExpirationDate := .generic g } ∧
        createPropose decodePropose (expirationBody v) =
          [.write "This is a protected handler"]) ∧
    (v.hasHugeNumber = true →
      (∃ e, Propose.setField p "expirationDate" v = .error e) ∧
      ∃ e, createPropose decodePropose (expirationBody v) = [.badRequest e]) ∧
    toGo .null = .ok .nil ∧ (∀ b, toGo (.bool b) = .ok (.bool b)) ∧
    (∀ s, toGo (.str s) = .ok (.string s)) ∧
    (∀ n : Int, n.natAbs < 2 ^ 53 → toGo (.num n) = .ok (.float64 n)) ∧
    (∀ vs gs, toGoList vs = .ok gs → toGo (.arr vs) = .ok (.slice gs)) ∧
    (∀ ms es, toGoMembers [] ms = .ok es → toGo (.obj ms) = .ok (.map es)) := by
  refine ⟨?_, ?_, rfl, fun _ => rfl, fun _ => rfl, ?_, ?_, ?_⟩
  · intro hv
    obtain ⟨g, hg⟩ := (toGo_ok_iff v).2 hv
    have hdec : decodePropose (expirationBody v) Propose.zero =
        .ok { Propose.zero with ExpirationDate := .generic g } := by
      simp +decide [decodePropose, expirationBody, DecodeJSON, Propose.decode, decodeStruct,
        decodeMembers, Propose.setField, Any.decode, Except.map, hg]
    refine ⟨g, hg, ?_, rfl, hdec, ?_⟩
    · simp +decide [Propose.setField, Any.decode, Except.map, hg]
    · simp [createPropose, hdec]
  · intro hv
    cases hg : toGo v with
    | ok g =>
      have := (toGo_ok_iff v).1 ⟨g, hg⟩
      rw [hv] at this
      exact absurd this (by decide)
    | error e =>
      have hdec : decodePropose (expirationBody v) Propose.zero = .error e := by
        simp +decide [decodePropose, expirationBody, DecodeJSON, Propose.decode, decodeStruct,
          decodeMembers, Propose.setField, Any.decode, Except.map, hg]
      refine ⟨⟨e, ?_⟩, ⟨e, ?_⟩⟩
      · simp +decide [Propose.setField, Any.decode, Except.map, hg]
      · simp [createPropose, hdec]
  · intro n hn
    simp [toGo, float64OfInt_small n hn]
  · intro vs gs h
    simp [toGo, h]
  · intro ms es h
    simp [toGo, h]

/-- C8 (witness): a valid timestamp is stored as a string, the number
`2 ^ 53 + 1` as the `float64` `2 ^ 53`, and the number `10 ^ 400` is rejected as
a bad request. -/
theorem expirationDate_stored_generic_witness :
    (∃ g, toGo (.str "2026-11-08T12:00:00Z") = .ok g ∧
      decodePropose timestampExpirationBody Propose.zero =
        .ok { Propose.zero with ExpirationDate := .generic g } ∧
      createPropose decodePropose timestampExpirationBody =
        [.write "This is a protected handler"]) ∧
    toGo (.str "2026-11-08T12:00:00Z") = .ok (.string "2026-11-08T12:00:00Z") ∧
    toGo (.num 9007199254740993) = .ok (.float64 9007199254740992) ∧
    ∃ e, createPropose decodePropose hugeExpirationBody = [.badRequest e] :=
  ⟨match (expirationDate_stored_generic Propose.zero (.str "2026-11-08T12:00:00Z")).1 rfl with
    | ⟨g, hg, _, _, hd, hc⟩ => ⟨g, hg, hd, hc⟩,
    rfl, rfl,
    ((expirationDate_stored_generic Propose.zero
      (.num (Int.ofNat (10 ^ 200 * 10 ^ 200)))).2.1 (by decide)).2⟩

/-- C6 (the code at the failing input): the request carries the street `rua`,
the decoded record holds it, and the row `createDebtor` stores has the ten
columns of the statement, none of them `street`, and holds `rua` nowhere. -/
theorem createDebtor_drops_street :
    decodeDebtor debtorBody Debtor.zero = .ok debtorInput ∧
    debtorInput.Address.Street = "rua" ∧
    (createDebtor decodeDebtor envSuccess none ⟨[]⟩ debtorBody).2.debtors =
      [[("id", sampleUUID.String), ("fiscal_document", "12345678"), ("name", "Devedor"),
        ("email", "email@email.com"), ("type_of_debtor", "individual"),
        ("postal_code", "38400200"), ("city", "cidade"), ("uf", "estado"), ("number", "0"),
        ("complement", "ap 123")]] ∧
    ∀ row ∈ (createDebtor decodeDebtor envSuccess none ⟨[]⟩ debtorBody).2.debtors,
      "street" ∉ row.map Prod.fst ∧ "rua" ∉ row.map Prod.snd := by
  have hd : decodeDebtor debtorBody Debtor.zero = .ok debtorInput := rfl
  have hrow : (createDebtor decodeDebtor envSuccess none ⟨[]⟩ debtorBody).2.debtors =
      [[("id", sampleUUID.String), ("fiscal_document", "12345678"), ("name", "Devedor"),
        ("email", "email@email.com"), ("type_of_debtor", "individual"),
        ("postal_code", "38400200"), ("city", "cidade"), ("uf", "estado"), ("number", "0"),
        ("complement", "ap 123")]] := by
    simp [createDebtor, hd, InsertDebtor, ExecContext, envSuccess, bindRow_query, debtorInput]
  refine ⟨hd, rfl, hrow, ?_⟩
  intro row hmem
  rw [hrow] at hmem
  simp only [List.mem_singleton] at hmem
  subst hmem
  have hid : "rua" ≠ sampleUUID.String := by decide
  simp [hid]

/-- C9: for every decoded request, when the UUID is generated and the statement
carried out, the statement binds the UUID to column `id` and the request's
fiscal document, name, email, type of debtor, postal code, city, uf, number and
complement to the columns of the same names; the stored row is that binding;
the response carries the string form of that UUID; and the whole outcome is the
same whatever `ID` the request supplies. -/
theorem createDebtor_binds_by_position
    (decodeJSON : Body → Debtor → Except Err Debtor) (env : InsertEnv) (jsonErr : Option Err)
    (db : DB) (body : Body) (input : Debtor) (u : UUID)
    (hdec : decodeJSON body Debtor.zero = .ok input) (hu : env.newUUID = (u, none))
    (hexec : env.exec = none) :
    bindRow InsertDebtor.query
        [u.String, input.FiscalDocument, input.Name, input.Email, input.TypeOfDebtor,
          input.Address.PostalCode, input.Address.City, input.Address.Uf, input.Address.Number,
          input.Address.Complement] =
      some [("id", u.String), ("fiscal_document", input.FiscalDocument), ("name", input.Name),
        ("email", input.Email), ("type_of_debtor", input.TypeOfDebtor),
        ("postal_code", input.Address.PostalCode), ("city", input.Address.City),
        ("uf", input.Address.Uf), ("number", input.Address.Number),
        ("complement", input.Address.Complement)] ∧
    (createDebtor decodeJSON env jsonErr db body).2.debtors =
      db.debtors ++
        [[("id", u.String), ("fiscal_document", input.FiscalDocument), ("name", input.Name),
          ("email", input.Email), ("type_of_debtor", input.TypeOfDebtor),
          ("postal_code", input.Address.PostalCode), ("city", input.Address.City),
          ("uf", input.Address.Uf), ("number", input.Address.Number),
          ("complement", input.Address.Complement)]] ∧
    (createDebtor decodeJSON env jsonErr db body).1.take 2 =
      [.insertDebtor input.FiscalDocument input.Name input.Email input.TypeOfDebtor
          input.Address.PostalCode input.Address.City input.Address.Uf input.Address.Number
          input.Address.Complement,
        .responseJSON StatusOK u.String] ∧
    ∀ x, createDebtor (fun b d => (decodeJSON b d).map fun i => { i with ID := x }) env jsonErr
        db body = createDebtor decodeJSON env jsonErr db body := by
  obtain ⟨nu, ex⟩ := env
  simp only at hu hexec
  subst hu hexec
  refine ⟨bindRow_query .., ?_, ?_, ?_⟩
  · cases jsonErr <;>
      simp [createDebtor, hdec, InsertDebtor, ExecContext, bindRow_query]
  · cases jsonErr <;>
      simp [createDebtor, hdec, InsertDebtor, ExecContext, bindRow_query]
  · intro x
    cases jsonErr <;>
      simp [createDebtor, hdec, InsertDebtor, ExecContext, bindRow_query, Except.map]

/-- C9 (witness): the sample request, with the UUID generated and the statement
carried out. -/
theorem createDebtor_binds_by_position_witness :
    (createDebtor decodeDebtor envSuccess none ⟨[]⟩ debtorBody).1.take 2 =
      [.insertDebtor "12345678" "Devedor" "email@email.com" "individual" "38400200" "cidade"
          "estado" "0" "ap 123",
        .responseJSON StatusOK sampleUUID.String] :=
  (createDebtor_binds_by_position decodeDebtor envSuccess none ⟨[]⟩ debtorBody debtorInput
    sampleUUID rfl rfl rfl).2.2.1

/-- C10: `createDebtor` calls `InsertDebtor` at most once; when decoding fails it
only reports the bad request, without calling `InsertDebtor` and without
touching the database; when `InsertDebtor` returns an error it reports the
server error and never calls `response.JSON`. -/
theorem createDebtor_sequencing
    (decodeJSON : Body → Debtor → Except Err Debtor) (env : InsertEnv) (jsonErr : Option Err)
    (db : DB) (body : Body) :
    ((createDebtor decodeJSON env jsonErr db body).1.filter Effect.isInsert).length ≤ 1 ∧
    (∀ err, decodeJSON body Debtor.zero = .error err →
      createDebtor decodeJSON env jsonErr db body = ([.badRequest err], db)) ∧
    (∀ input err, decodeJSON body Debtor.zero = .ok input →
      (InsertDebtor db env input.FiscalDocument input.Name input.Email input.TypeOfDebtor
        input.Address.PostalCode input.Address.City input.Address.Uf input.Address.Number
        input.Address.Complement).err = some err →
      .serverError err ∈ (createDebtor decodeJSON env jsonErr db body).1 ∧
      ((createDebtor decodeJSON env jsonErr db body).1.filter Effect.isResponse) = []) := by
  refine ⟨?_, ?_, ?_⟩
  · cases hdec : decodeJSON body Debtor.zero with
    | error e => simp [createDebtor, hdec, Effect.isInsert]
    | ok input =>
      simp only [createDebtor, hdec]
      split
      · simp [Effect.isInsert]
      · cases jsonErr <;> simp [Effect.isInsert]
  · intro err hdec
    simp [createDebtor, hdec]
  · intro input err hdec herr
    simp [createDebtor, hdec, herr, Effect.isResponse]

/-- C10 (witness): a body that is not JSON, and a request whose insert fails. -/
theorem createDebtor_sequencing_witness :
    createDebtor decodeDebtor envSuccess none ⟨[]⟩ .malformed =
      ([.badRequest "body contains badly-formed JSON"], ⟨[]⟩) ∧
    (createDebtor decodeDebtor envExecFails none ⟨[]⟩ debtorBody).1 =
      [.insertDebtor "12345678" "Devedor" "email@email.com" "individual" "38400200" "cidade"
          "estado" "0" "ap 123",
        .serverError "context deadline exceeded"] :=
  ⟨(createDebtor_sequencing decodeDebtor envSuccess none ⟨[]⟩ .malformed).2.1 _ rfl, rfl⟩

end Api

namespace Database

/-- C7: `InsertDebtor` returns either a nil error and the string form of the
generated UUID, which is not empty, or a non-nil error and the empty string; and
it returns an error exactly when generating the UUID or executing the statement
fails. -/
theorem InsertDebtor_id_or_error (db : DB) (env : InsertEnv)
    (fiscalDocument name email typeOfDebtor postalCode city uf number complement : String) :
    (((InsertDebtor db env fiscalDocument name email typeOfDebtor postalCode city uf number
          complement).err = none ∧
        (InsertDebtor db env fiscalDocument name email typeOfDebtor postalCode city uf number
          complement).id = env.newUUID.1.String ∧
        (InsertDebtor db env fiscalDocument name email typeOfDebtor postalCode city uf number
          complement).id ≠ "") ∨
      ((InsertDebtor db env fiscalDocument name email typeOfDebtor postalCode city uf number
          complement).err ≠ none ∧
        (InsertDebtor db env fiscalDocument name email typeOfDebtor postalCode city uf number
          complement).id = "")) ∧
    ((InsertDebtor db env fiscalDocument name email typeOfDebtor postalCode city uf number
        complement).err ≠ none ↔ (env.newUUID.2 ≠ none ∨ env.exec ≠ none)) := by
  obtain ⟨⟨u, ue⟩, ex⟩ := env
  cases ue <;> cases ex <;>
    simp [InsertDebtor, ExecContext, bindRow_query, UUID.String_ne_empty]

end Database

namespace Lifecycle
open Database

/-- C2: `Advance` succeeds exactly on the fourteen allowed pairs of current state
and target (from `sent`: `viewed`, `expired`, `cancelled`, `error`; from
`viewed`: `accepted`, `expired`, `cancelled`, `error`; from `accepted`:
`execution`, `cancelled`, `error`; from `execution`: `completed`, `cancelled`,
`error`); a success sets the situation to the target and the update time to
the clock reading; from a terminal state every attempt fails; and a failure
leaves the status as it was. -/
theorem Advance_succeeds_iff (p : Propose) (target : String) (now : Time) :
    ((Advance p target now).2 = none ↔
      (p.Status.Situation, target) ∈
        [("sent", "viewed"), ("sent", "expired"), ("sent", "cancelled"), ("sent", "error"),
          ("viewed", "accepted"), ("viewed", "expired"), ("viewed", "cancelled"),
          ("viewed", "error"),
          ("accepted", "execution"), ("accepted", "cancelled"), ("accepted", "error"),
          ("execution", "completed"), ("execution", "cancelled"), ("execution", "error")]) ∧
    ((Advance p target now).2 = none →
      (Advance p target now).1 = { UpdatedAt := now, Situation := target }) ∧
    (p.Status.Situation ∈ ["completed", "expired", "cancelled", "error"] →
      (Advance p target now).2 ≠ none) ∧
    ((Advance p target now).2 ≠ none → (Advance p target now).1 = p.Status) := by
  generalize hs : p.Status.Situation = s
  simp only [Advance, terminal, allowed, hs]
  by_cases h1 : s = "sent"
  · subst h1; simp +decide only [List.mem_cons, Prod.mk.injEq, true_and, false_and, or_false,
      false_or, List.mem_nil_iff, ite_false, ite_true, if_false, if_true, or_self]
    split_ifs with h <;> simp [h]
  by_cases h2 : s = "viewed"
  · subst h2; simp +decide only [List.mem_cons, Prod.mk.injEq, true_and, false_and, or_false,
      false_or, List.mem_nil_iff, ite_false, ite_true, if_false, if_true, or_self]
    split_ifs with h <;> simp [h]
  by_cases h3 : s = "accepted"
  · subst h3; simp +decide only [List.mem_cons, Prod.mk.injEq, true_and, false_and, or_false,
      false_or, List.mem_nil_iff, ite_false, ite_true, if_false, if_true, or_self]
    split_ifs with h <;> simp [h]
  by_cases h4 : s = "execution"
  · subst h4; simp +decide only [List.mem_cons, Prod.mk.injEq, true_and, false_and, or_false,
      false_or, List.mem_nil_iff, ite_false, ite_true, if_false, if_true, or_self]
    split_ifs with h <;> simp [h]
  simp only [h1, h2, h3, h4, List.mem_cons, Prod.mk.injEq, false_and, or_false,
      false_or, List.mem_nil_iff, ite_false, if_false, or_self]
  split_ifs with h <;> simp [h]

/-- C2 (witness): from `sent` the target `viewed` is accepted and stored, and
from `completed` the target `sent` is refused. -/
theorem Advance_succeeds_iff_witness :
    (Advance { Propose.zero with Status := { UpdatedAt := Time.zero, Situation := "sent" } }
      "viewed" TestName.sampleEnv.date).2 = none ∧
    (Advance { Propose.zero with Status := { UpdatedAt := Time.zero, Situation := "completed" } }
      "sent" TestName.sampleEnv.date).2 ≠ none :=
  ⟨(Advance_succeeds_iff
      { Propose.zero with Status := { UpdatedAt := Time.zero, Situation := "sent" } }
      "viewed" TestName.sampleEnv.date).1.2 (by decide),
    (Advance_succeeds_iff
      { Propose.zero with Status := { UpdatedAt := Time.zero, Situation := "completed" } }
      "sent" TestName.sampleEnv.date).2.2.1 (by decide)⟩

end Lifecycle

end Hackajur
